import Mathlib

/-!
Verification of the xboard dynamic-rate reconciler (src/index.js).

Shallow embedding conventions:
* a time of day "HH:mm:ss" is the number of seconds since midnight (`Nat`);
  `moment.isAfter` / `isSameOrAfter` / `isSameOrBefore` on same-day moments
  become `<` / `≤` / `≥` on these second counts;
* a rate value is carried as `ℚ` (the program never computes with it, it only
  copies it around);
* a node record's panel-owned fields beyond `id`, `type`, `rate`, `group_id`
  are carried opaquely in an `extra` association list;
* a missing / empty JavaScript `type` string (falsy under `!postData.type`)
  is the empty string `""`;
* network effects are oracles passed as parameters, and each modelled
  operation returns the trace of the calls it issued next to its result.
-/

/-- Seconds since midnight for an "HH:mm:ss" time of day. -/
def hmsToSec (h m s : Nat) : Nat :=
  h * 3600 + m * 60 + s

/-- Embedding of `isTimeBetween` (src/index.js lines 20–34) with the clock
reading made explicit: `startTime.isAfter(endTime)` is `endTime < startTime`;
the wrap branch returns `isSameOrAfter start || isSameOrBefore end`, the
normal branch the conjunction. -/
def isTimeBetween (startTime endTime now : Nat) : Bool :=
  if endTime < startTime then
    decide (startTime ≤ now) || decide (now ≤ endTime)
  else
    decide (startTime ≤ now) && decide (now ≤ endTime)

/-- One entry of a config node's `rate_config` list. -/
structure RateConfig where
  start_time : Nat
  end_time : Nat
  rate : ℚ
deriving DecidableEq, Repr

/-- A node rule from `config.yaml`'s `nodes` list. -/
structure NodeRule where
  id : Int
  type : String
  rate_config : List RateConfig
deriving DecidableEq, Repr

/-- A node as returned by the panel's `getNodes` endpoint. -/
structure RemoteNode where
  id : Int
  type : String
  rate : ℚ
  group_id : Option (List Int)
  extra : List (String × String)
deriving DecidableEq, Repr

/-- The body posted to the panel's `save` endpoint: the node's fields with
`group_id` (when present) re-encoded as indexed key/value pairs. -/
structure PostData where
  id : Int
  type : String
  rate : ℚ
  group_id : Option (List (String × Int))
  extra : List (String × String)
deriving DecidableEq, Repr

/-- Embedding of `nodeData.group_id.map((id, index) => [`group_id[index]`, id])`
(src/index.js lines 123–126), with the running index made explicit. -/
def encodeGroupId (k : Nat) : List Int → List (String × Int)
  | [] => []
  | g :: rest => ("group_id[" ++ toString k ++ "]", g) :: encodeGroupId (k + 1) rest

/-- The `postData` built from `nodeData` at the top of the `batchChange` loop
(src/index.js lines 121–127): a field-for-field copy, with `group_id`
re-encoded when the node carries one. -/
def makePostData (nodeData : RemoteNode) : PostData :=
  { id := nodeData.id
    type := nodeData.type
    rate := nodeData.rate
    group_id := nodeData.group_id.map (encodeGroupId 0)
    extra := nodeData.extra }

/-- The innermost loop of `changeRate` (src/index.js lines 195–200): iterate a
matched rule's `rate_config` entries in order and push
`{ ...existNode, rate: rateConfig.rate }` for every active window, appending
to the running `updateNodesData` accumulator. -/
def pushActiveWindows (existNode : RemoteNode) (now : Nat)
    (rateConfigs : List RateConfig) (acc : List RemoteNode) : List RemoteNode :=
  rateConfigs.foldl (fun a rateConfig =>
    if isTimeBetween rateConfig.start_time rateConfig.end_time now then
      a ++ [{ existNode with rate := rateConfig.rate }]
    else a) acc

/-- The middle loop of `changeRate` (src/index.js lines 190–202): scan the
fetched nodes in list order and, on an `id`/`type` match, run the window
loop. -/
def pushMatches (configNode : NodeRule) (now : Nat)
    (existNodes : List RemoteNode) (acc : List RemoteNode) : List RemoteNode :=
  existNodes.foldl (fun a existNode =>
    if existNode.id = configNode.id ∧ existNode.type = configNode.type then
      pushActiveWindows existNode now configNode.rate_config a
    else a) acc

/-- The pure reconciliation core of `changeRate` (src/index.js lines 188–203):
the `updateNodesData` list built by the three nested loops, starting from the
empty accumulator. -/
def collectUpdateNodesData (configNodes : List NodeRule)
    (existNodes : List RemoteNode) (now : Nat) : List RemoteNode :=
  configNodes.foldl (fun a configNode => pushMatches configNode now existNodes a) []

/-- Modelled from the spec's words for the C4 comparison: the update records
of one matched node are its copies at the rule's active windows, in window
declaration order. -/
def activeRecords (node : RemoteNode) (now : Nat)
    (rateConfigs : List RateConfig) : List RemoteNode :=
  (rateConfigs.filter (fun rc => isTimeBetween rc.start_time rc.end_time now)).map
    (fun rc => { node with rate := rc.rate })

/-- Modelled from the spec's words for the C4 comparison: the remote nodes
matching a rule on `(id, type)`, in remote list order. -/
def matchingNodes (rule : NodeRule) (existNodes : List RemoteNode) : List RemoteNode :=
  existNodes.filter (fun n => decide (n.id = rule.id ∧ n.type = rule.type))

/-- Modelled from the spec's words for the C4 comparison: one update record per
(rule, matching remote node, active window) triple, ordered by rule
declaration order, then remote match order, then window declaration order. -/
def reconcileSpec (configNodes : List NodeRule) (existNodes : List RemoteNode)
    (now : Nat) : List RemoteNode :=
  configNodes.flatMap (fun rule =>
    (matchingNodes rule existNodes).flatMap (fun node =>
      activeRecords node now rule.rate_config))

lemma pushActiveWindows_eq (existNode : RemoteNode) (now : Nat)
    (rateConfigs : List RateConfig) (acc : List RemoteNode) :
    pushActiveWindows existNode now rateConfigs acc =
      acc ++ activeRecords existNode now rateConfigs := by
  induction rateConfigs generalizing acc with
  | nil => simp [pushActiveWindows, activeRecords]
  | cons rc rest ih =>
    simp only [pushActiveWindows, List.foldl_cons] at *
    by_cases hrc : isTimeBetween rc.start_time rc.end_time now
    · simp [ih, hrc, activeRecords, List.filter_cons]
    · simp [ih, hrc, activeRecords, List.filter_cons]

lemma pushMatches_eq (configNode : NodeRule) (now : Nat)
    (existNodes : List RemoteNode) (acc : List RemoteNode) :
    pushMatches configNode now existNodes acc =
      acc ++ (matchingNodes configNode existNodes).flatMap (fun node =>
        activeRecords node now configNode.rate_config) := by
  induction existNodes generalizing acc with
  | nil => simp [pushMatches, matchingNodes]
  | cons n rest ih =>
    simp only [pushMatches, List.foldl_cons] at *
    by_cases hm : n.id = configNode.id ∧ n.type = configNode.type
    · rw [if_pos hm, ih, pushActiveWindows_eq]
      simp [matchingNodes, List.filter_cons, hm, List.append_assoc]
    · rw [if_neg hm, ih]
      simp [matchingNodes, List.filter_cons, hm]

lemma collectUpdateNodesData_eq (configNodes : List NodeRule)
    (existNodes : List RemoteNode) (now : Nat) :
    collectUpdateNodesData configNodes existNodes now =
      reconcileSpec configNodes existNodes now := by
  suffices h : ∀ acc : List RemoteNode,
      configNodes.foldl (fun a configNode => pushMatches configNode now existNodes a)
        acc = acc ++ reconcileSpec configNodes existNodes now by
    simpa [collectUpdateNodesData] using h []
  induction configNodes with
  | nil => intro acc; simp [reconcileSpec]
  | cons c rest ih =>
    intro acc
    rw [List.foldl_cons, ih, pushMatches_eq]
    simp [reconcileSpec, List.append_assoc]

/-- The config rule of the spec's end-to-end scenario: node 1 of type
"vmess" with windows 09:00:00–18:00:00 at rate 1 and 18:00:00–09:00:00 at
rate 2. -/
def scenarioRule : NodeRule :=
  { id := 1
    type := "vmess"
    rate_config :=
      [{ start_time := hmsToSec 9 0 0, end_time := hmsToSec 18 0 0, rate := 1 },
       { start_time := hmsToSec 18 0 0, end_time := hmsToSec 9 0 0, rate := 2 }] }

/-- The remote node of the spec's end-to-end scenario: id 1, type "vmess",
rate 0.5, with further panel-owned fields. -/
def scenarioNode : RemoteNode :=
  { id := 1
    type := "vmess"
    rate := 1 / 2
    group_id := some [1, 2]
    extra := [("name", "hk-01"), ("host", "hk.example.com")] }

/- Claim C2/C3 groundwork: the two branches of `isTimeBetween`. -/

/-- C2: on a window with `start ≤ end` the code takes the non-wrap branch and
is active exactly on the inclusive interval; a zero-width window is active
only at the single instant `now = start`. -/
theorem isTimeBetween_normal (startTime endTime now : Nat)
    (h : startTime ≤ endTime) :
    (isTimeBetween startTime endTime now = true ↔
      startTime ≤ now ∧ now ≤ endTime) ∧
    (startTime = endTime →
      (isTimeBetween startTime endTime now = true ↔ now = startTime)) := by
  have hbr : ¬ endTime < startTime := not_lt.mpr h
  have hmain : isTimeBetween startTime endTime now = true ↔
      startTime ≤ now ∧ now ≤ endTime := by
    simp [isTimeBetween, hbr]
  refine ⟨hmain, fun heq => ?_⟩
  rw [hmain]
  omega

/-- Witness for `isTimeBetween_normal` at the window 09:00:00–18:00:00 and
`now` = 12:00:00. -/
theorem isTimeBetween_normal_witness :
    isTimeBetween (hmsToSec 9 0 0) (hmsToSec 18 0 0) (hmsToSec 12 0 0) = true :=
  ((isTimeBetween_normal (hmsToSec 9 0 0) (hmsToSec 18 0 0) (hmsToSec 12 0 0)
      (by decide)).1).mpr (by decide)

/-- C3: on a window with `start > end` the code takes the midnight-wrap branch
and is active exactly when `now ≥ start` or `now ≤ end`, both inclusive. -/
theorem isTimeBetween_wrap (startTime endTime now : Nat)
    (h : endTime < startTime) :
    isTimeBetween startTime endTime now = true ↔
      startTime ≤ now ∨ now ≤ endTime := by
  simp [isTimeBetween, h]

/-- Witness for `isTimeBetween_wrap`: the window 22:00:00–02:00:00 is active at
23:59:59, at 00:00:01 and at 02:00:00, and inactive at 12:00:00. -/
theorem isTimeBetween_wrap_witness :
    isTimeBetween (hmsToSec 22 0 0) (hmsToSec 2 0 0) (hmsToSec 23 59 59) = true ∧
    isTimeBetween (hmsToSec 22 0 0) (hmsToSec 2 0 0) (hmsToSec 0 0 1) = true ∧
    isTimeBetween (hmsToSec 22 0 0) (hmsToSec 2 0 0) (hmsToSec 2 0 0) = true ∧
    isTimeBetween (hmsToSec 22 0 0) (hmsToSec 2 0 0) (hmsToSec 12 0 0) = false :=
  ⟨(isTimeBetween_wrap _ _ _ (by decide)).mpr (by decide),
   (isTimeBetween_wrap _ _ _ (by decide)).mpr (by decide),
   (isTimeBetween_wrap _ _ _ (by decide)).mpr (by decide),
   by
     have h := isTimeBetween_wrap (hmsToSec 22 0 0) (hmsToSec 2 0 0)
       (hmsToSec 12 0 0) (by decide)
     by_contra hc
     exact absurd (h.mp (by simpa using hc)) (by decide)⟩

/-- C4: the nested reconciliation loop of `changeRate` emits exactly one
update record per (config rule, matching remote node, active window) triple,
ordered by rule declaration order, then remote-node list order, then window
declaration order; a rule with no `(id, type)` match, or a match with no
active window, contributes nothing. -/
theorem changeRate_reconciliation_shape (configNodes : List NodeRule)
    (existNodes : List RemoteNode) (now : Nat) :
    collectUpdateNodesData configNodes existNodes now =
      reconcileSpec configNodes existNodes now :=
  collectUpdateNodesData_eq configNodes existNodes now

/-- C9: reconciliation is deterministic — identical config nodes, identical
remote nodes and the same fixed `now` yield identical ordered output. -/
theorem changeRate_deterministic (c₁ c₂ : List NodeRule)
    (r₁ r₂ : List RemoteNode) (n₁ n₂ : Nat)
    (hc : c₁ = c₂) (hr : r₁ = r₂) (hn : n₁ = n₂) :
    collectUpdateNodesData c₁ r₁ n₁ = collectUpdateNodesData c₂ r₂ n₂ := by
  subst hc
  subst hr
  subst hn
  rfl

/-- Witness for `changeRate_deterministic` on the end-to-end scenario
inputs. -/
theorem changeRate_deterministic_witness :
    collectUpdateNodesData [scenarioRule] [scenarioNode] (hmsToSec 20 0 0) =
      collectUpdateNodesData [scenarioRule] [scenarioNode] (hmsToSec 20 0 0) :=
  changeRate_deterministic [scenarioRule] [scenarioRule] [scenarioNode]
    [scenarioNode] (hmsToSec 20 0 0) (hmsToSec 20 0 0) rfl rfl rfl

/-- C5: every emitted update record is a matched remote node's full field set
with only `rate` replaced by an active window's rate; and on the end-to-end
scenario evaluated at 20:00:00 the output is exactly one record with rate 2
and all other fields copied from the remote node. -/
theorem changeRate_frame (configNodes : List NodeRule)
    (existNodes : List RemoteNode) (now : Nat) :
    (∀ u ∈ collectUpdateNodesData configNodes existNodes now,
      ∃ rule ∈ configNodes, ∃ node ∈ existNodes, ∃ rc ∈ rule.rate_config,
        node.id = rule.id ∧ node.type = rule.type ∧
        isTimeBetween rc.start_time rc.end_time now = true ∧
        u = { node with rate := rc.rate }) ∧
    collectUpdateNodesData [scenarioRule] [scenarioNode] (hmsToSec 20 0 0) =
      [{ scenarioNode with rate := 2 }] := by
  constructor
  · intro u hu
    rw [collectUpdateNodesData_eq] at hu
    simp only [reconcileSpec, matchingNodes, activeRecords, List.mem_flatMap,
      List.mem_filter, List.mem_map, Bool.and_eq_true, decide_eq_true_eq] at hu
    obtain ⟨rule, hrule, node, ⟨hnode, hid, hty⟩, rc, ⟨hrc, hact⟩, hu⟩ := hu
    exact ⟨rule, hrule, node, hnode, rc, hrc, hid, hty, hact, hu.symm⟩
  · decide

/-- Witness for `changeRate_frame` at the end-to-end scenario: the emitted
record is the scenario node with rate overwritten by an active window's
rate. -/
theorem changeRate_frame_witness :
    ∃ rule ∈ [scenarioRule], ∃ node ∈ [scenarioNode], ∃ rc ∈ rule.rate_config,
      node.id = rule.id ∧ node.type = rule.type ∧
      isTimeBetween rc.start_time rc.end_time (hmsToSec 20 0 0) = true ∧
      ({ scenarioNode with rate := 2 } : RemoteNode) =
        { node with rate := rc.rate } :=
  (changeRate_frame [scenarioRule] [scenarioNode] (hmsToSec 20 0 0)).1
    { scenarioNode with rate := 2 } (by decide)

/-- The error message thrown at src/index.js line 129 when a record's `type`
is missing. -/
def missingTypeMsg (id : Int) : String :=
  "修改节点 ID " ++ toString id ++ " 时缺少节点类型数据"

/-- The error message thrown by `getNodes` / `batchChange` when `authData` is
unset (src/index.js lines 95 and 117). -/
def unauthorizedMsg : String :=
  "未授权，请先登录"

/-- One observed network interaction of the `batchChange` loop: a save request
posted for `data`, together with whether the remote call succeeded (a failed
call is logged and has no further effect). -/
inductive BatchEvent where
  | posted (data : PostData) (success : Bool)
deriving DecidableEq, Repr

/-- The `for` loop of `XBClient.batchChange` (src/index.js lines 120–138):
build `postData`, throw when its `type` is empty (this `throw` sits outside
the per-record `try`, so it ends the whole loop), otherwise post and log —
the `catch` around the post swallows a failed save. Returns the posted
events in order and the error that escaped the loop, if any. -/
def batchChangeLoop (post : PostData → Bool) :
    List RemoteNode → List BatchEvent × Option String
  | [] => ([], none)
  | nodeData :: rest =>
    if (makePostData nodeData).type = "" then
      ([], some (missingTypeMsg (makePostData nodeData).id))
    else
      (BatchEvent.posted (makePostData nodeData) (post (makePostData nodeData)) ::
        (batchChangeLoop post rest).1,
       (batchChangeLoop post rest).2)

/-- `XBClient.batchChange` (src/index.js lines 115–139): the `authData` guard
followed by the record loop. -/
def batchChange (authData : Option String) (post : PostData → Bool)
    (updateNodesData : List RemoteNode) : List BatchEvent × Option String :=
  match authData with
  | none => ([], some unauthorizedMsg)
  | some _ => batchChangeLoop post updateNodesData

/-- `XBClient.getNodes` (src/index.js lines 93–110): the `authData` guard,
then the fetch; the boolean records whether a network request was issued. -/
def getNodes (authData : Option String)
    (fetchResult : Except String (List RemoteNode)) :
    Bool × Except String (List RemoteNode) :=
  match authData with
  | none => (false, Except.error unauthorizedMsg)
  | some _ => (true, fetchResult)

lemma batchChangeLoop_all_typed (post : PostData → Bool) :
    ∀ batch : List RemoteNode, (∀ n ∈ batch, n.type ≠ "") →
      batchChangeLoop post batch =
        (batch.map fun n =>
          BatchEvent.posted (makePostData n) (post (makePostData n)), none)
  | [], _ => rfl
  | n :: rest, h => by
    have hn : (makePostData n).type ≠ "" := h n (List.mem_cons_self n rest)
    have hrest := batchChangeLoop_all_typed post rest
      (fun m hm => h m (List.mem_cons_of_mem n hm))
    simp [batchChangeLoop, hn, hrest]

lemma batchChangeLoop_until_bad (post : PostData → Bool) (bad : RemoteNode)
    (rest : List RemoteNode) (hbad : bad.type = "") :
    ∀ pre : List RemoteNode, (∀ n ∈ pre, n.type ≠ "") →
      batchChangeLoop post (pre ++ bad :: rest) =
        (pre.map fun n =>
          BatchEvent.posted (makePostData n) (post (makePostData n)),
         some (missingTypeMsg bad.id))
  | [], _ => by
    simp [batchChangeLoop, makePostData, hbad]
  | n :: pre, h => by
    have hn : (makePostData n).type ≠ "" := h n (List.mem_cons_self n pre)
    have hrec := batchChangeLoop_until_bad post bad rest hbad pre
      (fun m hm => h m (List.mem_cons_of_mem n hm))
    simp [batchChangeLoop, hn, hrec]

lemma encodeGroupId_length (k : Nat) (gs : List Int) :
    (encodeGroupId k gs).length = gs.length := by
  induction gs generalizing k with
  | nil => rfl
  | cons g rest ih => simp [encodeGroupId, ih]

lemma encodeGroupId_getElem (k : Nat) (gs : List Int) (i : Nat) (g : Int)
    (h : gs[i]? = some g) :
    (encodeGroupId k gs)[i]? =
      some ("group_id[" ++ toString (k + i) ++ "]", g) := by
  induction gs generalizing k i with
  | nil => simp at h
  | cons a rest ih =>
    cases i with
    | zero =>
      rw [List.getElem?_cons_zero, Option.some_inj] at h
      simp [encodeGroupId, h]
    | succ j =>
      rw [List.getElem?_cons_succ] at h
      have hrec := ih (k + 1) j h
      have harith : k + 1 + j = k + (j + 1) := by omega
      rw [harith] at hrec
      simpa [encodeGroupId, List.getElem?_cons_succ] using hrec

/-- Success or the fatal, error-logged termination of a run. -/
inductive Outcome where
  | success
  | fatal (msg : String)
deriving DecidableEq, Repr

/-- What a whole run did: whether login was attempted, whether the node list
was requested, and which save requests were posted. -/
structure RunTrace where
  loginAttempted : Bool
  fetchAttempted : Bool
  postedData : List BatchEvent
deriving DecidableEq, Repr

/-- The log line of the `catch` in `DynamicRate.changeRate`
(src/index.js line 210). -/
def rateFailMsg (e : String) : String :=
  "调整倍率失败: " ++ e

/-- The log line of the `catch` in the main entry point
(src/index.js line 221). -/
def scriptFailMsg (e : String) : String :=
  "脚本运行失败: " ++ e

/-- `DynamicRate.changeRate` (src/index.js lines 184–212) with the network
made explicit: `loginResult` is what `login` yields (token or thrown error,
the non-admin check included), `fetchResult` what the node-list request
yields, `post` the per-save outcome. The surrounding `try`/`catch` turns any
escaped error into the fatal error-logged outcome. -/
def changeRate (loginResult : Except String String)
    (fetchResult : Except String (List RemoteNode))
    (post : PostData → Bool)
    (configNodes : List NodeRule) (now : Nat) : RunTrace × Outcome :=
  match loginResult with
  | Except.error e =>
    ({ loginAttempted := true, fetchAttempted := false, postedData := [] },
     Outcome.fatal (rateFailMsg e))
  | Except.ok tok =>
    match getNodes (some tok) fetchResult with
    | (_, Except.error e) =>
      ({ loginAttempted := true, fetchAttempted := true, postedData := [] },
       Outcome.fatal (rateFailMsg e))
    | (_, Except.ok existNodes) =>
      if (collectUpdateNodesData configNodes existNodes now).isEmpty then
        ({ loginAttempted := true, fetchAttempted := true, postedData := [] },
         Outcome.success)
      else
        ({ loginAttempted := true, fetchAttempted := true,
           postedData :=
             (batchChange (some tok) post
               (collectUpdateNodesData configNodes existNodes now)).1 },
         match (batchChange (some tok) post
             (collectUpdateNodesData configNodes existNodes now)).2 with
         | none => Outcome.success
         | some e => Outcome.fatal (rateFailMsg e))

/-- The main entry point (src/index.js lines 216–223): constructing
`DynamicRate` loads the config; a config failure is caught and logged before
any network activity, otherwise `changeRate` runs. -/
def mainRun (configResult : Except String (List NodeRule))
    (loginResult : Except String String)
    (fetchResult : Except String (List RemoteNode))
    (post : PostData → Bool) (now : Nat) : RunTrace × Outcome :=
  match configResult with
  | Except.error e =>
    ({ loginAttempted := false, fetchAttempted := false, postedData := [] },
     Outcome.fatal (scriptFailMsg e))
  | Except.ok configNodes => changeRate loginResult fetchResult post configNodes now

/-- A well-formed update record used in concrete batches. -/
def goodNodeA : RemoteNode :=
  { id := 3, type := "vmess", rate := 1, group_id := none, extra := [] }

/-- A second well-formed update record used in concrete batches. -/
def goodNodeB : RemoteNode :=
  { id := 4, type := "trojan", rate := 2, group_id := some [], extra := [] }

/-- An update record whose `type` is missing (empty, falsy in the source). -/
def badNode : RemoteNode :=
  { id := 7, type := "", rate := 1, group_id := none, extra := [] }

/-- C6: when every record of the batch carries a non-empty `type`, every
record is posted exactly once in order whatever the per-save outcomes are —
a failed save is recorded (logged) and skipped, and no error escapes the
loop. -/
theorem batchChange_save_failure_isolated (tok : String)
    (post : PostData → Bool) (updateNodesData : List RemoteNode)
    (h : ∀ n ∈ updateNodesData, n.type ≠ "") :
    batchChange (some tok) post updateNodesData =
      (updateNodesData.map fun n =>
        BatchEvent.posted (makePostData n) (post (makePostData n)), none) := by
  simpa [batchChange] using batchChangeLoop_all_typed post updateNodesData h

/-- Witness for `batchChange_save_failure_isolated`: a two-record batch in
which every save fails still posts both records and raises no error. -/
theorem batchChange_save_failure_isolated_witness :
    batchChange (some "token") (fun _ => false) [goodNodeA, goodNodeB] =
      ([BatchEvent.posted (makePostData goodNodeA) false,
        BatchEvent.posted (makePostData goodNodeB) false], none) :=
  batchChange_save_failure_isolated "token" (fun _ => false)
    [goodNodeA, goodNodeB] (by decide)

/-- C1 counterexample: in the batch `[badNode, goodNodeA]` the record without
a `type` makes `batchChange` throw before any further record, so `goodNodeA`
— positioned after it — is never posted, refuting the claim that sibling
records still get applied. -/
theorem batchChange_missing_type_aborts_rest :
    batchChange (some "token") (fun _ => true) [badNode, goodNodeA] =
      ([], some (missingTypeMsg 7)) ∧
    BatchEvent.posted (makePostData goodNodeA) true ∉
      (batchChange (some "token") (fun _ => true) [badNode, goodNodeA]).1 := by
  constructor
  · rfl
  · decide

/-- C1 amended: a record lacking a non-empty `type` makes `batchChange` throw
an error naming that record's id; the records before it in the batch were
already posted, and it and every record after it are not processed. -/
theorem batchChange_missing_type_amended (tok : String)
    (post : PostData → Bool) (pre : List RemoteNode) (bad : RemoteNode)
    (rest : List RemoteNode) (hpre : ∀ n ∈ pre, n.type ≠ "")
    (hbad : bad.type = "") :
    batchChange (some tok) post (pre ++ bad :: rest) =
      (pre.map fun n =>
        BatchEvent.posted (makePostData n) (post (makePostData n)),
       some (missingTypeMsg bad.id)) := by
  simpa [batchChange] using
    batchChangeLoop_until_bad post bad rest hbad pre hpre

/-- Witness for `batchChange_missing_type_amended` on the batch
`[goodNodeA, badNode, goodNodeB]`. -/
theorem batchChange_missing_type_amended_witness :
    batchChange (some "token") (fun _ => true) [goodNodeA, badNode, goodNodeB] =
      ([BatchEvent.posted (makePostData goodNodeA) true],
       some (missingTypeMsg 7)) :=
  batchChange_missing_type_amended "token" (fun _ => true) [goodNodeA]
    badNode [goodNodeB] (by decide) rfl

/-- C8: a posted record carrying a `group_id` collection has it serialized as
the indexed pair list `("group_id[i]", gᵢ)` of the same length; a record
without one is posted with all its fields unchanged. -/
theorem batchChange_group_id_encoding (nodeData : RemoteNode) (gs : List Int) :
    (nodeData.group_id = some gs →
      (makePostData nodeData).group_id = some (encodeGroupId 0 gs) ∧
      (encodeGroupId 0 gs).length = gs.length ∧
      ∀ (i : Nat) (g : Int), gs[i]? = some g →
        (encodeGroupId 0 gs)[i]? =
          some ("group_id[" ++ toString i ++ "]", g)) ∧
    (nodeData.group_id = none →
      makePostData nodeData =
        { id := nodeData.id, type := nodeData.type, rate := nodeData.rate,
          group_id := none, extra := nodeData.extra }) := by
  constructor
  · intro hg
    refine ⟨by simp [makePostData, hg], encodeGroupId_length 0 gs,
      fun i g h => ?_⟩
    simpa using encodeGroupId_getElem 0 gs i g h
  · intro hg
    simp [makePostData, hg]

/-- Witness for `batchChange_group_id_encoding` on a node whose `group_id`
is `[10, 20]`. -/
theorem batchChange_group_id_encoding_witness :
    (makePostData
        { id := 9, type := "shadowsocks", rate := 3,
          group_id := some [10, 20], extra := [] }).group_id =
      some (encodeGroupId 0 [10, 20]) :=
  ((batchChange_group_id_encoding
      { id := 9, type := "shadowsocks", rate := 3,
        group_id := some [10, 20], extra := [] } [10, 20]).1 rfl).1

/-- C10: with no stored authorization data, `getNodes` and `batchChange` both
fail at once with the unauthorized error, issuing no network request. -/
theorem unauthorized_guard (fetchResult : Except String (List RemoteNode))
    (post : PostData → Bool) (updateNodesData : List RemoteNode) :
    getNodes none fetchResult = (false, Except.error unauthorizedMsg) ∧
    batchChange none post updateNodesData = ([], some unauthorizedMsg) :=
  ⟨rfl, rfl⟩

/-- C7: a config-load failure ends the run before login; a login failure ends
it with the fatal outcome before any node fetch; a node-list fetch failure
ends it with the fatal outcome before any update is posted. -/
theorem fatal_errors_abort (e tok : String)
    (loginResult : Except String String)
    (fetchResult : Except String (List RemoteNode)) (post : PostData → Bool)
    (configNodes : List NodeRule) (now : Nat) :
    mainRun (Except.error e) loginResult fetchResult post now =
      ({ loginAttempted := false, fetchAttempted := false, postedData := [] },
       Outcome.fatal (scriptFailMsg e)) ∧
    changeRate (Except.error e) fetchResult post configNodes now =
      ({ loginAttempted := true, fetchAttempted := false, postedData := [] },
       Outcome.fatal (rateFailMsg e)) ∧
    changeRate (Except.ok tok) (Except.error e) post configNodes now =
      ({ loginAttempted := true, fetchAttempted := true, postedData := [] },
       Outcome.fatal (rateFailMsg e)) :=
  ⟨rfl, rfl, rfl⟩
